import Mathlib

/-!
Verification development for the twitter_style_automator publishing pipeline.

Shallow embedding of the modules the specification covers:
poster.py (post_tweet, _get_today_post_count, _increment_today_post_count,
_log_post, post_generated_tweet), content_guard.py (safety_check,
is_too_similar_to_recent, _blocklist_reject), accounts.py
(get_credentials_for_handle), config.py (per-handle file paths) and the
signature of tweet_fetcher.get_all_tweets_from_db.

Python strings are Lean Strings (manipulated through their character lists so
every definition evaluates by kernel reduction); Python ints are Lean Int;
file and network effects are made explicit (file contents are inputs, appended
log entries and quota increments are outputs, platform responses are an input
list consumed one per submission attempt).  The float threshold 0.85 in the
near-duplicate gate is modeled exactly as the rational 17/20 via an integer
comparison.
-/

/-- Trim whitespace from both ends of a character list. -/
def trimChars (cs : List Char) : List Char :=
  ((cs.dropWhile Char.isWhitespace).reverse.dropWhile Char.isWhitespace).reverse

/-- Model of Python str.strip(): remove leading and trailing whitespace. -/
def pythonStrip (s : String) : String := String.mk (trimChars s.toList)

/-- Model of the handle normalisation `(h or "").strip().lstrip("@")` used
throughout the source: strip, then drop every leading `@`. -/
def normalizeHandle (s : String) : String :=
  String.mk ((trimChars s.toList).dropWhile (fun c => c = '@'))

/-- Model of Python str.lower() over the character list. -/
def pyLower (s : String) : String := String.mk (s.toList.map Char.toLower)

/-- Splitting on whitespace runs with no empty pieces, accumulating the
current word reversed; models Python str.split() with no arguments. -/
def wordsAux : List Char → List Char → List String
  | [], acc => if acc = [] then [] else [String.mk acc.reverse]
  | c :: cs, acc =>
    if c.isWhitespace then
      if acc = [] then wordsAux cs [] else String.mk acc.reverse :: wordsAux cs []
    else wordsAux cs (c :: acc)

/-- Model of Python text.lower().split(). -/
def pyWords (s : String) : List String := wordsAux (s.toList.map Char.toLower) []

/-- Digits-only parse of a character list into a natural number; none when the
list is empty or holds a non-digit. -/
def parseDigits (cs : List Char) : Option Nat :=
  if cs = [] then none
  else if cs.all Char.isDigit then
    some (cs.foldl (fun a c => a * 10 + (c.toNat - 48)) 0)
  else none

/-- Model of Python int(s): strip whitespace, optional sign, then decimal
digits; any other shape raises ValueError, modeled as none.  (The model covers
the standard decimal forms; exotic forms such as underscore separators are out
of scope of the spec.) -/
def pythonParseInt (s : String) : Option Int :=
  match trimChars s.toList with
  | [] => none
  | '+' :: rest => (parseDigits rest).map (fun n => (n : Int))
  | '-' :: rest => (parseDigits rest).map (fun n => -(n : Int))
  | cs => (parseDigits cs).map (fun n => (n : Int))

/-- Does the character list hay start with needle? -/
def charsStartWith (needle hay : List Char) : Bool :=
  decide (hay.take needle.length = needle)

/-- Substring search over character lists, modeling the Python `in` operator
on strings. -/
def charsContainSub (hay needle : List Char) : Bool :=
  match hay with
  | [] => decide (needle = [])
  | c :: t => charsStartWith needle (c :: t) || charsContainSub t needle

/-- Model of the Python expression `needle in hay` for strings. -/
def strContainsSub (hay needle : String) : Bool :=
  charsContainSub hay.toList needle.toList

/-- Word set of a text as in content_guard.is_too_similar_to_recent:
`set(text.lower().split())`, modeled as the deduplicated word list. -/
def wordSet (s : String) : List String := (pyWords s).dedup

/-- Size of the intersection of the candidate word set with the words of a
previous text: `len(text_words & prev_words)`. -/
def overlapCount (tw : List String) (prev : String) : Nat :=
  (tw.filter (fun w => (wordSet prev).contains w)).length

/-- content_guard.is_too_similar_to_recent (content_guard.py lines 100-119):
true when the candidate shares at least the 0.85 ratio of its own word set
with one of the first 20 recent texts.  The float comparison
`len(&)/max(len,1) >= 0.85` is modeled exactly as `20*overlap ≥ 17*max(len,1)`. -/
def is_too_similar_to_recent (text : String) (recent_tweets : List String) : Bool :=
  if recent_tweets = [] ∨ text = "" then false
  else
    let tw := wordSet text
    if tw.length < 3 then false
    else (recent_tweets.take 20).any (fun prev =>
      decide (20 * overlapCount tw prev ≥ 17 * max tw.length 1))

/-- Platform response to one create_tweet submission, as classified by
poster.post_tweet: a response carrying an id, a response without usable data,
a tweepy.TooManyRequests signal, or another tweepy.TweepyException. -/
inductive PlatformResponse
  | success (id : String)
  | noData
  | rateLimited
  | tweepyError (msg : String)
deriving DecidableEq, Repr

/-- Observable outcome of one poster.post_tweet call: returned id (none =
failure), number of create_tweet submission attempts, and the sleep durations
performed (seconds). -/
structure PostOutcome where
  result : Option String
  attempts : Nat
  sleeps : List Nat
deriving DecidableEq, Repr

/-- poster.post_tweet (poster.py lines 83-119), non-media-specific behaviour.
Length is validated locally first (`if not text or len(text) > 280`), dry runs
return "dry_run_id" without submitting, and a rate-limited submission sleeps
RATE_LIMIT_WAIT = 900 seconds and retries by recursive self-call
(`return post_tweet(text, dry_run=False, media_ids=media_ids)`, which also
drops the handle argument).  Each submission consumes one platform response. -/
def post_tweet (text : String) (dry_run : Bool) (responses : List PlatformResponse) :
    PostOutcome :=
  if text.length = 0 ∨ 280 < text.length then ⟨none, 0, []⟩
  else if dry_run then ⟨some "dry_run_id", 0, []⟩
  else
    match responses with
    | [] => ⟨none, 0, []⟩
    | .success id :: _ => if id = "" then ⟨none, 1, []⟩ else ⟨some id, 1, []⟩
    | .noData :: _ => ⟨none, 1, []⟩
    | .rateLimited :: rest =>
      let o := post_tweet text false rest
      ⟨o.result, o.attempts + 1, 900 :: o.sleeps⟩
    | .tweepyError _ :: _ => ⟨none, 1, []⟩

/-- State of a per-account quota counter file as poster._get_today_post_count
can encounter it: missing, unreadable (open/read raises), or readable content.
`content lines` stands for a readable file whose text, after
`f.read().strip().splitlines()`, is this list of lines. -/
inductive CountFile
  | absent
  | unreadable
  | content (lines : List String)
deriving DecidableEq, Repr

/-- poster._get_today_post_count (poster.py lines 122-137): returns the stored
count only when the file is readable, has at least two lines, the first
(stripped) equals today, and the second (stripped) parses as an int; every
other state — including any raised exception — yields 0. -/
def _get_today_post_count (file : CountFile) (today : String) : Int :=
  match file with
  | .absent => 0
  | .unreadable => 0
  | .content lines =>
    if 2 ≤ lines.length then
      if pythonStrip (lines.getD 0 "") = today then
        match pythonParseInt (pythonStrip (lines.getD 1 "")) with
        | some n => n
        | none => 0
      else 0
    else 0

/-- The quota gate as used at poster.py line 191: posting is permitted when
the count read from the file for today is strictly below MAX_POSTS_PER_DAY. -/
def quota_permits (file : CountFile) (today : String) (limit : Int) : Bool :=
  _get_today_post_count file today < limit

/-- poster._increment_today_post_count (poster.py lines 140-150): re-read,
add 1, write back stamped with today. -/
def _increment_today_post_count (file : CountFile) (today : String) : CountFile :=
  .content [today, toString (_get_today_post_count file today + 1)]

/-- Result of the ai_client.chat call as observed by content_guard: a reply
text, a raised ValueError with its message, or any other raised exception. -/
inductive ChatResult
  | ok (reply : String)
  | valueError (msg : String)
  | otherExc (msg : String)
deriving DecidableEq, Repr

/-- Observable outcome of content_guard.safety_check: a returned
(approved, reason) pair, or a propagated exception. -/
inductive SafetyOutcome
  | returns (approved : Bool) (reason : String)
  | raises (msg : String)
deriving DecidableEq, Repr

/-- content_guard._blocklist_reject (content_guard.py lines 32-40): first
configured phrase occurring in the lowercased text, if any. -/
def blocklist_reject (text : String) (blocklist : List String) : Option String :=
  blocklist.find? (fun phrase => strContainsSub (pyLower text) phrase)

/-- The test `"required" in str(e).lower() or "api_key" in str(e).lower()` by
which safety_check recognises a missing-provider-credential ValueError
(content_guard.py line 90). -/
def authKeyPattern (msg : String) : Bool :=
  strContainsSub (pyLower msg) "required" || strContainsSub (pyLower msg) "api_key"

/-- Parsing of the safety reply (content_guard.py lines 78-87): strip, split
off the first whitespace-delimited token as the score (int() failure scores
0), remainder (or the whole stripped reply) as the reason. -/
def parseScoreReply (reply : String) : Int × String :=
  let cs := trimChars reply.toList
  let tok := cs.takeWhile (fun c => !c.isWhitespace)
  let rest := (cs.dropWhile (fun c => !c.isWhitespace)).dropWhile Char.isWhitespace
  let scoreStr := if tok = [] then "0" else String.mk tok
  let reason := if rest = [] then String.mk cs else String.mk rest
  ((pythonParseInt scoreStr).getD 0, reason)

/-- content_guard.safety_check (content_guard.py lines 43-97) as a function of
the blocklist and the chat outcome.  A blocklist hit rejects before any chat
call; a reply is scored and approved iff score ≥ min_score; a ValueError whose
lowercased message mentions "required" or "api_key" is treated as a missing
provider credential and approves with the skipped reason; any other ValueError
is re-raised; any other exception rejects (fail closed). -/
def safety_check (text : String) (blocklist : List String) (chat : ChatResult)
    (min_score : Int) : SafetyOutcome :=
  match blocklist_reject text blocklist with
  | some phrase => .returns false ("Blocklist hit: " ++ phrase)
  | none =>
    match chat with
    | .ok reply =>
      let p := parseScoreReply reply
      .returns (min_score ≤ p.1) ("Score " ++ toString p.1 ++ ": " ++ p.2)
    | .valueError msg =>
      if authKeyPattern msg then .returns true "No API key (check skipped)"
      else .raises msg
    | .otherExc msg => .returns false ("Safety check error: " ++ msg)

/-- A stored credential pair (access_token, access_token_secret). -/
structure Creds where
  access_token : String
  access_token_secret : String
deriving DecidableEq, Repr

/-- Result of accounts.get_credentials_for_handle: a credential pair, or the
raised ValueError; `err named` records the handle the error message names
(`handle or X_HANDLE`). -/
inductive CredResult
  | ok (c : Creds)
  | err (named : String)
deriving DecidableEq, Repr

/-- The handle the resolution operates on:
`(handle or "").strip().lstrip("@") or (X_HANDLE or "").strip().lstrip("@")`
(accounts.py line 49). -/
def effectiveHandle (handle : Option String) (xHandle : String) : String :=
  let e := normalizeHandle (handle.getD "")
  if e = "" then normalizeHandle xHandle else e

/-- accounts.get_credentials_for_handle (accounts.py lines 40-58).  `accounts`
is the map load_accounts built from accounts.json (keys already stripped of
whitespace and leading `@`, entries with a missing token filtered out),
`xHandle`, `xToken`, `xSecret` the X_HANDLE / X_ACCESS_TOKEN /
X_ACCESS_TOKEN_SECRET configuration ("" models unset).  `handle = none`
models passing None. -/
def get_credentials_for_handle (handle : Option String)
    (accounts : List (String × Creds)) (xHandle xToken xSecret : String) :
    CredResult :=
  let h := effectiveHandle handle xHandle
  match (if h = "" then none else accounts.lookup h) with
  | some c => .ok c
  | none =>
    if xToken ≠ "" ∧ xSecret ≠ "" then .ok ⟨xToken, xSecret⟩
    else .err (if handle.getD "" ≠ "" then handle.getD "" else xHandle)

/-- config.get_post_count_file_for_handle (config.py lines 63-66), as the file
name relative to the project directory. -/
def get_post_count_file_for_handle (handle : String) : String :=
  let n := normalizeHandle handle
  "post_count_" ++ (if n = "" then "default" else n) ++ ".txt"

/-- config.get_post_log_path_for_handle (config.py lines 69-72), as the file
name relative to the project directory. -/
def get_post_log_path_for_handle (handle : String) : String :=
  let n := normalizeHandle handle
  "post_log_" ++ (if n = "" then "default" else n) ++ ".txt"

/-- The parameter names of tweet_fetcher.get_all_tweets_from_db
(tweet_fetcher.py lines 205-208): `def get_all_tweets_from_db(db_path=None,
limit=None)`. -/
def getAllTweetsFromDbParams : List String := ["db_path", "limit"]

/-- The keyword arguments poster.post_generated_tweet passes to
get_all_tweets_from_db at poster.py line 210:
`get_all_tweets_from_db(db_path=DB_PATH, limit=30, handle=h or None)`. -/
def posterDedupCallKwargs : List String := ["db_path", "limit", "handle"]

/-- Python call semantics for keyword arguments: the call raises TypeError
(unexpected keyword argument) iff some keyword is not among the
parameter names of the callee. -/
def kwargCallRaisesTypeError (params kwargs : List String) : Bool :=
  kwargs.any (fun k => !params.contains k)

/-- A raised Python exception, as far as the pipeline model distinguishes
them. -/
inductive PyError
  | typeError (msg : String)
  | valueError (msg : String)
deriving DecidableEq, Repr

/-- One line appended to the per-account post log by poster._log_post
(poster.py lines 153-168): timestamp, dry-run flag, tweet id (empty when
absent) and the text. -/
structure LogEntry where
  ts : String
  dry : Bool
  tweetId : String
  text : String
deriving DecidableEq, Repr

/-- Everything one poster.post_generated_tweet invocation reads from its
surroundings: arguments, configuration, the quota file, the clock, the
generated candidate, the safety chat outcome, credential availability and the
platform responses. -/
structure PipelineEnv where
  handle : String
  xHandle : String
  dryRun : Bool
  enableSafety : Bool
  maxPostsPerDay : Int
  quotaFile : CountFile
  today : String
  now : String
  generated : String
  blocklist : List String
  safetyChat : ChatResult
  credsOk : Bool
  publishResponses : List PlatformResponse
deriving Repr

deriving instance DecidableEq for Except

/-- Observable outcome of one poster.post_generated_tweet invocation: returned
value or propagated exception, number of _increment_today_post_count calls,
and the log entries appended by _log_post. -/
structure PipelineOutcome where
  result : Except PyError (Option String)
  increments : Nat
  logEntries : List LogEntry
deriving DecidableEq, Repr

/-- The publish-and-record tail of post_generated_tweet (poster.py lines
216-228).  Dry run: _log_post first (dry entry, blank id), then credential
resolution (a failure there propagates after the entry is written), then
post_tweet in dry mode.  Real run: credential resolution, post_tweet, and only
a truthy returned id increments the quota and appends a log entry. -/
def pipelinePublish (env : PipelineEnv) : PipelineOutcome :=
  if env.dryRun then
    let e : LogEntry := ⟨env.now, true, "", env.generated⟩
    if env.credsOk then
      ⟨.ok (post_tweet env.generated true []).result, 0, [e]⟩
    else
      ⟨.error (.valueError "X_API_KEY and X_API_SECRET required for posting"), 0, [e]⟩
  else if env.credsOk then
    match (post_tweet env.generated false env.publishResponses).result with
    | some tid => ⟨.ok (some tid), 1, [⟨env.now, false, tid, env.generated⟩]⟩
    | none => ⟨.ok none, 0, []⟩
  else
    ⟨.error (.valueError "X_API_KEY and X_API_SECRET required for posting"), 0, []⟩

/-- poster.post_generated_tweet (poster.py lines 171-228).  Order of gates as
in the source: daily quota (skipped on dry run), empty candidate, then — when
not a dry run and ENABLE_SAFETY_CHECK — safety_check (a rejection skips, a
re-raised ValueError propagates) followed by the near-duplicate call, which in
this revision always raises TypeError because it passes the keyword `handle`
that tweet_fetcher.get_all_tweets_from_db does not accept; finally the
publish-and-record tail. -/
def post_generated_tweet (env : PipelineEnv) : PipelineOutcome :=
  if env.dryRun = false ∧ env.maxPostsPerDay ≤ _get_today_post_count env.quotaFile env.today then
    ⟨.ok none, 0, []⟩
  else if env.generated = "" then ⟨.ok none, 0, []⟩
  else if env.dryRun = false ∧ env.enableSafety then
    match safety_check env.generated env.blocklist env.safetyChat 4 with
    | .returns false _ => ⟨.ok none, 0, []⟩
    | .returns true _ =>
      ⟨.error (.typeError "get_all_tweets_from_db got an unexpected keyword argument handle"),
        0, []⟩
    | .raises m => ⟨.error (.valueError m), 0, []⟩
  else pipelinePublish env

/-- Outcome the first non-rate-limited platform response produces in
post_tweet: a truthy id is returned, anything else yields None. -/
def firstAttemptResult : PlatformResponse → Option String
  | .success id => if id = "" then none else some id
  | _ => none

/-- Did a pipeline invocation end with a platform-confirmed publish? -/
def publishedOk : Except PyError (Option String) → Bool
  | .ok (some _) => true
  | _ => false

/-- The ValueError message _ollama_chat raises on a connection failure
(ai_client.py lines 136-139), for the default OLLAMA_BASE_URL. -/
def ollamaConnMsg : String :=
  "Could not reach Ollama at http://localhost:11434. Is Ollama running? Start it with: ollama serve"

/-- A non-dry-run environment with safety checking disabled whose single
publish submission fails with an ordinary TweepyException. -/
def envRealPublishFails : PipelineEnv :=
  ⟨"bob", "ann", false, false, 5, .absent, "2026-10-12", "T", "hello world",
    [], .ok "5 ok", true, [.tweepyError "boom"]⟩

/-- A non-dry-run environment with safety checking enabled whose safety chat
approves, driving the pipeline into the near-duplicate call. -/
def envSafetyApproved : PipelineEnv :=
  ⟨"alice", "ann", false, true, 5, .absent, "2026-10-12", "T", "hello world",
    [], .ok "5 ok", true, [.success "42"]⟩

/-- A non-dry-run environment with safety checking disabled whose single
publish submission succeeds. -/
def envRealPublishOk : PipelineEnv :=
  ⟨"bob", "ann", false, false, 5, .absent, "2026-10-12", "T", "hello world",
    [], .ok "5 ok", true, [.success "42"]⟩

/-- A dry-run environment with a non-empty candidate. -/
def envDryRun : PipelineEnv :=
  ⟨"bob", "ann", true, true, 5, .absent, "2026-10-12", "T", "hello world",
    [], .ok "5 ok", true, []⟩

/-- A non-dry-run environment whose first submission is rate-limited and whose
retry fails. -/
def envRetryFails : PipelineEnv :=
  ⟨"bob", "ann", false, false, 5, .absent, "2026-10-12", "T", "hello world",
    [], .ok "5 ok", true, [.rateLimited, .tweepyError "boom"]⟩

/-- A non-dry-run environment whose quota file already records the daily
ceiling for today. -/
def envQuotaFull : PipelineEnv :=
  ⟨"bob", "ann", false, false, 5, .content ["2026-10-12", "5"], "2026-10-12",
    "T", "hello world", [], .ok "5 ok", true, [.success "42"]⟩

/-- Unfolding lemma for a valid-length non-dry-run post_tweet call hitting a
rate-limit response: sleep 900 and recurse on the rest. -/
theorem post_tweet_rateLimited_step (text : String) (rest : List PlatformResponse)
    (h : ¬(text.length = 0 ∨ 280 < text.length)) :
    post_tweet text false (.rateLimited :: rest) =
      ⟨(post_tweet text false rest).result, (post_tweet text false rest).attempts + 1,
        900 :: (post_tweet text false rest).sleeps⟩ := by
  conv_lhs => rw [post_tweet.eq_def]
  simp [h]

/-- Unfolding lemma for a valid-length non-dry-run post_tweet call whose first
response is not a rate limit: one attempt, outcome classified by the
response. -/
theorem post_tweet_first_step (text : String) (r : PlatformResponse)
    (rest : List PlatformResponse) (h : ¬(text.length = 0 ∨ 280 < text.length))
    (hr : r ≠ .rateLimited) :
    post_tweet text false (r :: rest) = ⟨firstAttemptResult r, 1, []⟩ := by
  conv_lhs => rw [post_tweet.eq_def]
  cases r with
  | success id => by_cases hid : id = "" <;> simp [h, firstAttemptResult, hid]
  | noData => simp [h, firstAttemptResult]
  | rateLimited => exact absurd rfl hr
  | tweepyError m => simp [h, firstAttemptResult]

/-- C1 counterexample: a publish call whose first two submissions are
rate-limited makes a third submission after a second 900-second sleep and can
still succeed — it neither stops at two attempts nor returns failure after the
second rate-limit signal. -/
theorem claim_C1_counterexample :
    post_tweet "hello" false [.rateLimited, .rateLimited, .success "42"] =
      ⟨some "42", 3, [900, 900]⟩ := by decide

/-- C1 (amended): a rate-limited submission sleeps the fixed 900-second
backoff and retries by recursive self-call, and this repeats for every
consecutive rate-limit signal: with n leading rate-limited responses followed
by a non-rate-limit response, one post_tweet call performs n + 1 submission
attempts and n backoff sleeps of 900 seconds, and its result is decided by
that first non-rate-limit response; termination holds only because the
rate-limit run is finite, not because retries are capped. -/
theorem claim_C1_amended (text : String) (n : Nat) (r : PlatformResponse)
    (rest : List PlatformResponse) (h1 : 1 ≤ text.length) (h2 : text.length ≤ 280)
    (hr : r ≠ .rateLimited) :
    post_tweet text false (List.replicate n .rateLimited ++ r :: rest) =
      ⟨firstAttemptResult r, n + 1, List.replicate n 900⟩ := by
  have hv : ¬(text.length = 0 ∨ 280 < text.length) := by omega
  induction n with
  | zero =>
    simpa using post_tweet_first_step text r rest hv hr
  | succ k ih =>
    rw [List.replicate_succ, List.cons_append, post_tweet_rateLimited_step text _ hv, ih]
    simp [List.replicate_succ]

/-- C1 witness: at a concrete input with two leading rate-limit responses the
call makes three attempts and two 900-second sleeps. -/
theorem claim_C1_witness :
    post_tweet "hi" false (List.replicate 2 .rateLimited ++ [.tweepyError "x"]) =
      ⟨none, 3, [900, 900]⟩ := by
  simpa using
    claim_C1_amended "hi" 2 (.tweepyError "x") [] (by decide) (by decide) (by decide)

/-- C2: a text of length 0 or above 280 makes post_tweet return failure with
zero platform submissions and zero sleeps, and any call that returns an id was
made with a text whose length lies in [1, 280]. -/
theorem claim_C2 (text : String) (dry_run : Bool) (responses : List PlatformResponse) :
    ((text.length = 0 ∨ 280 < text.length) →
      post_tweet text dry_run responses = ⟨none, 0, []⟩) ∧
    (∀ id, (post_tweet text dry_run responses).result = some id →
      1 ≤ text.length ∧ text.length ≤ 280) := by
  constructor
  · intro h
    rw [post_tweet.eq_def, if_pos h]
  · intro id hid
    by_cases h : text.length = 0 ∨ 280 < text.length
    · rw [post_tweet.eq_def, if_pos h] at hid
      simp at hid
    · omega

/-- C2 witness: the empty text is refused locally with no submission, and a
concrete successful call has text length in [1, 280]. -/
theorem claim_C2_witness :
    post_tweet "" false [.success "7"] = ⟨none, 0, []⟩ ∧
    (1 ≤ "hi".length ∧ "hi".length ≤ 280) :=
  ⟨(claim_C2 "" false [.success "7"]).1 (Or.inl (by decide)),
    (claim_C2 "hi" false [.success "7"]).2 "7" (by decide)⟩

/-- C3: in every non-dry-run pipeline invocation the quota counter is
incremented exactly once when the publish returned a success id and is left
unchanged otherwise — including rejected gates, propagated errors, and a
rate-limited first attempt whose retry failed. -/
theorem claim_C3 (env : PipelineEnv) (h : env.dryRun = false) :
    (post_generated_tweet env).increments =
      if publishedOk (post_generated_tweet env).result then 1 else 0 := by
  unfold post_generated_tweet pipelinePublish
  rw [h]
  split
  · rfl
  · split
    · rfl
    · split
      · split <;> rfl
      · simp only [Bool.false_eq_true, if_false]
        split
        · split <;> rfl
        · rfl

/-- C3 witness: a rate-limited first submission whose retry fails leaves the
counter at zero increments, and a confirmed publish increments once. -/
theorem claim_C3_witness :
    (post_generated_tweet envRetryFails).increments = 0 ∧
    (post_generated_tweet envRealPublishOk).increments = 1 := by
  constructor
  · rw [claim_C3 _ (by decide)]
    decide
  · rw [claim_C3 envRealPublishOk (by decide)]
    decide

/-- C7 counterexample: a real (non-dry-run) publish attempt whose platform
submission fails appends nothing to the audit log — the invocation completes
with a failure result and an empty list of appended entries. -/
theorem claim_C7_counterexample :
    post_generated_tweet envRealPublishFails =
      ⟨.ok none, 0, []⟩ := by decide

/-- C7 (amended): a dry-run invocation that produced a candidate appends
exactly one entry, marked dry-run with a blank id, before any submission; a
real invocation appends exactly one entry — carrying the returned id — iff
the publish returned a success id, and every skipped, rejected, crashed or
failed real attempt appends nothing. -/
theorem claim_C7_amended (env : PipelineEnv) :
    (env.dryRun = true →
      (post_generated_tweet env).logEntries =
        if env.generated = "" then [] else [⟨env.now, true, "", env.generated⟩]) ∧
    (env.dryRun = false →
      (post_generated_tweet env).logEntries =
        match (post_generated_tweet env).result with
        | .ok (some tid) => [⟨env.now, false, tid, env.generated⟩]
        | _ => []) := by
  constructor
  · intro h
    unfold post_generated_tweet pipelinePublish
    rw [h]
    by_cases hg : env.generated = ""
    · simp [hg]
    · simp only [hg, Bool.true_eq_false, false_and, if_false]
      rw [if_pos trivial]
      split <;> rfl
  · intro h
    unfold post_generated_tweet pipelinePublish
    rw [h]
    split
    · rfl
    · split
      · rfl
      · split
        · split <;> rfl
        · simp only [Bool.false_eq_true, if_false]
          split
          · split <;> rfl
          · rfl

/-- C7 witness: concrete dry-run and successful real invocations append
exactly their one expected entry. -/
theorem claim_C7_witness :
    (post_generated_tweet envDryRun).logEntries = [⟨"T", true, "", "hello world"⟩] ∧
    (post_generated_tweet envRealPublishOk).logEntries =
      [⟨"T", false, "42", "hello world"⟩] := by
  constructor
  · rw [(claim_C7_amended envDryRun).1 (by decide)]
    decide
  · rw [(claim_C7_amended envRealPublishOk).2 (by decide)]
    decide

/-- C10: reading the count for today is total — an absent file, an unreadable file,
fewer than two lines, a stale date line, or an unparsable count line all read
as 0, and only a readable two-plus-line file whose stripped first line equals
today yields the integer parsed from its second line. -/
theorem claim_C10 (lines : List String) (today : String) (n : Int) :
    _get_today_post_count .absent today = 0 ∧
    _get_today_post_count .unreadable today = 0 ∧
    (lines.length < 2 → _get_today_post_count (.content lines) today = 0) ∧
    (pythonStrip (lines.getD 0 "") ≠ today →
      _get_today_post_count (.content lines) today = 0) ∧
    (pythonParseInt (pythonStrip (lines.getD 1 "")) = none →
      _get_today_post_count (.content lines) today = 0) ∧
    (2 ≤ lines.length → pythonStrip (lines.getD 0 "") = today →
      pythonParseInt (pythonStrip (lines.getD 1 "")) = some n →
      _get_today_post_count (.content lines) today = n) := by
  refine ⟨rfl, rfl, ?_, ?_, ?_, ?_⟩
  · intro h
    simp only [_get_today_post_count]
    rw [if_neg (by omega)]
  · intro h
    simp only [_get_today_post_count]
    by_cases hl : 2 ≤ lines.length
    · rw [if_pos hl, if_neg h]
    · rw [if_neg hl]
  · intro h
    simp only [_get_today_post_count]
    by_cases hl : 2 ≤ lines.length
    · rw [if_pos hl]
      by_cases hdt : pythonStrip (lines.getD 0 "") = today
      · rw [if_pos hdt, h]
      · rw [if_neg hdt]
    · rw [if_neg hl]
  · intro h1 h2 h3
    simp only [_get_today_post_count]
    rw [if_pos h1, if_pos h2, h3]

/-- C10 witness: concrete malformed, stale and well-formed quota files read as
claimed. -/
theorem claim_C10_witness :
    _get_today_post_count (.content ["2026-10-12"]) "2026-10-12" = 0 ∧
    _get_today_post_count (.content ["2026-10-11", "4"]) "2026-10-12" = 0 ∧
    _get_today_post_count (.content ["2026-10-12", "4x"]) "2026-10-12" = 0 ∧
    _get_today_post_count (.content ["2026-10-12", " 4 "]) "2026-10-12" = 4 :=
  ⟨(claim_C10 ["2026-10-12"] "2026-10-12" 0).2.2.1 (by decide),
    (claim_C10 ["2026-10-11", "4"] "2026-10-12" 0).2.2.2.1 (by decide),
    (claim_C10 ["2026-10-12", "4x"] "2026-10-12" 0).2.2.2.2.1 (by decide),
    (claim_C10 ["2026-10-12", " 4 "] "2026-10-12" 4).2.2.2.2.2 (by decide) (by decide)
      (by decide)⟩

/-- C4: the quota gate reads the stored (day, count) pair, treats the count as
0 when the stored day is not today, permits posting iff the effective count is
below the daily limit, refuses for the rest of the day once the ceiling is
reached, permits again at the next (different) day for a positive limit, and a
refused check makes a non-dry-run pipeline invocation skip with no side
effects. -/
theorem claim_C4 (dayLine countLine storedDay : String) (c limit : Int)
    (today tomorrow : String) (hd : pythonStrip dayLine = storedDay)
    (hc : pythonParseInt (pythonStrip countLine) = some c) :
    (storedDay ≠ today →
      _get_today_post_count (.content [dayLine, countLine]) today = 0) ∧
    (storedDay = today →
      _get_today_post_count (.content [dayLine, countLine]) today = c) ∧
    (quota_permits (.content [dayLine, countLine]) today limit = true ↔
      (if storedDay = today then c else 0) < limit) ∧
    (storedDay = today → limit ≤ c →
      quota_permits (.content [dayLine, countLine]) today limit = false) ∧
    (tomorrow ≠ storedDay → 0 < limit →
      quota_permits (.content [dayLine, countLine]) tomorrow limit = true) ∧
    (∀ env : PipelineEnv, env.dryRun = false →
      quota_permits env.quotaFile env.today env.maxPostsPerDay = false →
      post_generated_tweet env = ⟨.ok none, 0, []⟩) := by
  have hread : ∀ d : String,
      _get_today_post_count (.content [dayLine, countLine]) d =
        if storedDay = d then c else 0 := by
    intro d
    simp only [_get_today_post_count, List.getD_cons_zero, List.getD_cons_succ]
    rw [if_pos (by simp), hd]
    by_cases hsd : storedDay = d
    · rw [if_pos hsd, if_pos hsd, hc]
    · rw [if_neg hsd, if_neg hsd]
  refine ⟨?_, ?_, ?_, ?_, ?_, ?_⟩
  · intro h
    rw [hread, if_neg h]
  · intro h
    rw [hread, if_pos h]
  · unfold quota_permits
    rw [hread]
    exact decide_eq_true_iff
  · intro h1 h2
    unfold quota_permits
    rw [hread, if_pos h1]
    simpa using not_lt.mpr h2
  · intro h1 h2
    unfold quota_permits
    rw [hread, if_neg (fun hx => h1 hx.symm)]
    simpa using h2
  · intro env he hq
    unfold quota_permits at hq
    unfold post_generated_tweet
    rw [if_pos ⟨he, by simpa using hq⟩]

/-- C4 witness: a file at the ceiling refuses for the rest of its day and
permits at the next day; a refused non-dry-run invocation skips with no side
effects. -/
theorem claim_C4_witness :
    quota_permits (.content ["2026-10-11", "5"]) "2026-10-11" 5 = false ∧
    quota_permits (.content ["2026-10-11", "5"]) "2026-10-12" 5 = true ∧
    post_generated_tweet envQuotaFull = ⟨.ok none, 0, []⟩ := by
  have h := claim_C4 "2026-10-11" "5" "2026-10-11" 5 5 "2026-10-11" "2026-10-12"
    (by decide) (by decide)
  exact ⟨h.2.2.2.1 rfl (by decide), h.2.2.2.2.1 (by decide) (by decide),
    h.2.2.2.2.2 _ (by decide) (by decide)⟩

/-- C5 counterexample: an Ollama connection failure is a provider-call failure
that is not a missing credential (Ollama requires none), yet safety_check does
not reject — it re-raises the ValueError, so the claimed fail-closed rejection
does not happen. -/
theorem claim_C5_counterexample :
    safety_check "hello world" [] (.valueError ollamaConnMsg) 4 =
      .raises ollamaConnMsg := by decide

/-- C5 (amended): when the text clears the blocklist, a ValueError whose
lowercased message mentions "required" or "api_key" (the missing-credential
errors chat raises) yields approval with the skipped reason; any other raised
exception type yields rejection (fail closed); a ValueError not matching that
pattern is re-raised rather than returned as a rejection; and no failing chat
call other than one matching the missing-credential pattern ever yields
approval. -/
theorem claim_C5_amended (text : String) (blocklist : List String) (msg : String)
    (min_score : Int) (hb : blocklist_reject text blocklist = none) :
    (authKeyPattern msg = true →
      safety_check text blocklist (.valueError msg) min_score =
        .returns true "No API key (check skipped)") ∧
    (authKeyPattern msg = false →
      safety_check text blocklist (.valueError msg) min_score = .raises msg) ∧
    (safety_check text blocklist (.otherExc msg) min_score =
      .returns false ("Safety check error: " ++ msg)) ∧
    (∀ reason, safety_check text blocklist (.otherExc msg) min_score ≠
      .returns true reason) ∧
    (authKeyPattern msg = false → ∀ reason,
      safety_check text blocklist (.valueError msg) min_score ≠
        .returns true reason) := by
  refine ⟨?_, ?_, ?_, ?_, ?_⟩
  · intro h
    simp only [safety_check, hb, h, if_true]
  · intro h
    simp only [safety_check, hb, h, Bool.false_eq_true, if_false]
  · simp only [safety_check, hb]
  · intro reason
    simp only [safety_check, hb]
    intro hx
    exact Bool.false_ne_true (SafetyOutcome.returns.inj hx).1
  · intro h reason
    simp only [safety_check, hb, h, Bool.false_eq_true, if_false]
    intro hx
    cases hx

/-- C5 witness: the two concrete missing-credential messages chat raises are
approved as skipped, and a concrete non-ValueError provider failure is
rejected. -/
theorem claim_C5_witness :
    safety_check "hi" []
        (.valueError "ANTHROPIC_API_KEY is required. Set it in .env or use AI_PROVIDER=ollama for local.") 4 =
      .returns true "No API key (check skipped)" ∧
    safety_check "hi" [] (.otherExc "connection timed out") 4 =
      .returns false ("Safety check error: " ++ "connection timed out") :=
  ⟨(claim_C5_amended "hi" []
      "ANTHROPIC_API_KEY is required. Set it in .env or use AI_PROVIDER=ollama for local."
      4 (by decide)).1 (by decide),
    (claim_C5_amended "hi" [] "connection timed out" 4 (by decide)).2.2.1⟩

/-- C6: a candidate with fewer than 3 distinct lowercase words is never
flagged, and a candidate with at least 3 distinct lowercase words is flagged
iff some text among the first 20 recent ones shares at least 17/20 of the
candidate word set (|intersection| / |candidate words| ≥ 0.85). -/
theorem claim_C6 (text : String) (recent : List String) :
    ((wordSet text).length < 3 → is_too_similar_to_recent text recent = false) ∧
    (3 ≤ (wordSet text).length →
      (is_too_similar_to_recent text recent = true ↔
        ∃ prev ∈ recent.take 20,
          17 * (wordSet text).length ≤ 20 * overlapCount (wordSet text) prev)) := by
  constructor
  · intro h
    simp only [is_too_similar_to_recent]
    split <;> simp [h]
  · intro h3
    have htext : text ≠ "" := by
      intro he
      rw [he] at h3
      exact absurd h3 (by decide)
    have hmax : max (wordSet text).length 1 = (wordSet text).length :=
      Nat.max_eq_left (by omega)
    by_cases hr : recent = []
    · subst hr
      simp [is_too_similar_to_recent]
    · simp only [is_too_similar_to_recent, hmax]
      rw [if_neg (by simp [hr, htext]), if_neg (by omega), List.any_eq_true]
      simp only [decide_eq_true_eq, ge_iff_le]

/-- C6 witness: a three-word candidate fully contained in a recent text is
flagged; a two-distinct-word candidate identical to a recent text is not. -/
theorem claim_C6_witness :
    is_too_similar_to_recent "a b c" ["a b c d"] = true ∧
    is_too_similar_to_recent "two words" ["two words"] = false :=
  ⟨((claim_C6 "a b c" ["a b c d"]).2 (by decide)).mpr
      ⟨"a b c d", by decide, by decide⟩,
    (claim_C6 "two words" ["two words"]).1 (by decide)⟩

/-- C8: resolution uses the explicit handle, else the configured default
handle, both stripped of whitespace and leading `@`; a non-empty effective
handle present in the multi-account map gets exactly its own entry; an absent
or empty one falls back to the default pair when both default tokens are set;
the call raises iff neither source has credentials, and the raised error names
the original handle argument (or the default handle when none was given). -/
theorem claim_C8 (handle : Option String) (accounts : List (String × Creds))
    (xHandle xToken xSecret : String) :
    (∀ c : Creds, effectiveHandle handle xHandle ≠ "" →
      accounts.lookup (effectiveHandle handle xHandle) = some c →
      get_credentials_for_handle handle accounts xHandle xToken xSecret = .ok c) ∧
    ((effectiveHandle handle xHandle = "" ∨
        accounts.lookup (effectiveHandle handle xHandle) = none) →
      xToken ≠ "" → xSecret ≠ "" →
      get_credentials_for_handle handle accounts xHandle xToken xSecret =
        .ok ⟨xToken, xSecret⟩) ∧
    ((∃ nm, get_credentials_for_handle handle accounts xHandle xToken xSecret =
        .err nm) ↔
      ((effectiveHandle handle xHandle = "" ∨
          accounts.lookup (effectiveHandle handle xHandle) = none) ∧
        (xToken = "" ∨ xSecret = ""))) ∧
    (∀ nm, get_credentials_for_handle handle accounts xHandle xToken xSecret =
        .err nm →
      nm = if handle.getD "" ≠ "" then handle.getD "" else xHandle) := by
  have hres : get_credentials_for_handle handle accounts xHandle xToken xSecret =
      match (if effectiveHandle handle xHandle = "" then none
        else accounts.lookup (effectiveHandle handle xHandle)) with
      | some c => CredResult.ok c
      | none =>
        if xToken ≠ "" ∧ xSecret ≠ "" then CredResult.ok ⟨xToken, xSecret⟩
        else CredResult.err
          (if handle.getD "" ≠ "" then handle.getD "" else xHandle) := rfl
  rcases hsc : (if effectiveHandle handle xHandle = "" then none
      else accounts.lookup (effectiveHandle handle xHandle)) with _ | c0
  · rw [hsc] at hres
    have hres2 : get_credentials_for_handle handle accounts xHandle xToken xSecret =
        if xToken ≠ "" ∧ xSecret ≠ "" then CredResult.ok ⟨xToken, xSecret⟩
        else CredResult.err
          (if handle.getD "" ≠ "" then handle.getD "" else xHandle) := hres
    have hor0 : effectiveHandle handle xHandle = "" ∨
        accounts.lookup (effectiveHandle handle xHandle) = none := by
      by_cases h0 : effectiveHandle handle xHandle = ""
      · exact Or.inl h0
      · rw [if_neg h0] at hsc
        exact Or.inr hsc
    refine ⟨?_, ?_, ?_, ?_⟩
    · intro c h0 hlk
      rw [if_neg h0] at hsc
      rw [hsc] at hlk
      cases hlk
    · intro _ ht hs
      rw [hres2, if_pos ⟨ht, hs⟩]
    · constructor
      · rintro ⟨nm, hnm⟩
        rw [hres2] at hnm
        by_cases hts : xToken ≠ "" ∧ xSecret ≠ ""
        · rw [if_pos hts] at hnm
          cases hnm
        · exact ⟨hor0, by tauto⟩
      · rintro ⟨_, hts⟩
        refine ⟨if handle.getD "" ≠ "" then handle.getD "" else xHandle, ?_⟩
        rw [hres2, if_neg (by tauto)]
    · intro nm hnm
      rw [hres2] at hnm
      by_cases hts : xToken ≠ "" ∧ xSecret ≠ ""
      · rw [if_pos hts] at hnm
        cases hnm
      · rw [if_neg hts] at hnm
        exact (CredResult.err.inj hnm).symm
  · rw [hsc] at hres
    have hres2 : get_credentials_for_handle handle accounts xHandle xToken xSecret =
        CredResult.ok c0 := hres
    have h0 : effectiveHandle handle xHandle ≠ "" := by
      intro h0
      rw [if_pos h0] at hsc
      cases hsc
    have hlk0 : accounts.lookup (effectiveHandle handle xHandle) = some c0 := by
      rw [if_neg h0] at hsc
      exact hsc
    refine ⟨?_, ?_, ?_, ?_⟩
    · intro c _ hlk
      rw [hlk0] at hlk
      rw [hres2, Option.some.inj hlk]
    · intro hor _ _
      rcases hor with h | h
      · exact absurd h h0
      · rw [hlk0] at h
        cases h
    · constructor
      · rintro ⟨nm, hnm⟩
        rw [hres2] at hnm
        cases hnm
      · rintro ⟨hor, _⟩
        rcases hor with h | h
        · exact absurd h h0
        · rw [hlk0] at h
          cases h
    · intro nm hnm
      rw [hres2] at hnm
      cases hnm

/-- C8 witness: a mapped handle resolves to exactly its own entry, an unmapped
handle with default tokens set falls back to the default pair, and with no
default tokens the error names the original handle argument. -/
theorem claim_C8_witness :
    get_credentials_for_handle (some "@bob") [("bob", ⟨"t", "s"⟩)] "ann" "dt" "ds" =
      .ok ⟨"t", "s"⟩ ∧
    get_credentials_for_handle (some "@bob") [("ann", ⟨"t", "s"⟩)] "ann" "dt" "ds" =
      .ok ⟨"dt", "ds"⟩ ∧
    get_credentials_for_handle (some "@bob") [] "ann" "" "" = .err "@bob" :=
  ⟨(claim_C8 (some "@bob") [("bob", ⟨"t", "s"⟩)] "ann" "dt" "ds").1 ⟨"t", "s"⟩
      (by decide) (by decide),
    (claim_C8 (some "@bob") [("ann", ⟨"t", "s"⟩)] "ann" "dt" "ds").2.1
      (Or.inr (by decide)) (by decide) (by decide),
    by
      have h := ((claim_C8 (some "@bob") [] "ann" "" "").2.2.1).mpr
        ⟨Or.inr rfl, Or.inl rfl⟩
      rcases h with ⟨nm, hnm⟩
      have := (claim_C8 (some "@bob") [] "ann" "" "").2.2.2 nm hnm
      rw [hnm, this]
      decide⟩

/-- C9: the per-handle keying of the quota and log files holds (distinct
normalized handles map to distinct files), but the near-duplicate history is
not drawn per account — the dedup call in post_generated_tweet passes the
keyword `handle`, which tweet_fetcher.get_all_tweets_from_db does not accept,
so under Python call semantics every safety-approved non-dry-run cycle raises
TypeError instead of comparing against the own history of the posting account. -/
theorem claim_C9_bug :
    kwargCallRaisesTypeError getAllTweetsFromDbParams posterDedupCallKwargs = true ∧
    ("handle" ∈ posterDedupCallKwargs ∧ "handle" ∉ getAllTweetsFromDbParams) ∧
    post_generated_tweet envSafetyApproved =
      ⟨.error (.typeError
        "get_all_tweets_from_db got an unexpected keyword argument handle"), 0, []⟩ ∧
    get_post_count_file_for_handle "alice" ≠ get_post_count_file_for_handle "bob" ∧
    get_post_log_path_for_handle "alice" ≠ get_post_log_path_for_handle "bob" := by
  decide
